import Mathlib

/-!
Verification of the CustomPrint Studio backend (`main.py`, `schemas.py`)
against its natural-language specification.

A shallow embedding: stored documents are untyped key/value maps, machine
values are modelled by an inductive `Value` type (Python floats appear only
as exact decimal literals in this program, so numbers are modelled by `ℚ`),
Python's `datetime.utcnow()` is modelled by an explicit clock `Nat → Nat`
consumed one reading per call, and failure of a store operation is modelled
by `Except`, caught exactly where the source catches exceptions.
-/

/-- A machine value stored in a document or sent in a request body:
Python `None`, booleans, numbers (Python floats occur in this program only
as exact decimals, hence `ℚ`), strings, and timestamps (clock readings). -/
inductive Value where
  | vNull : Value
  | vBool (b : Bool) : Value
  | vNum (q : ℚ) : Value
  | vStr (s : String) : Value
  | vTime (t : Nat) : Value
  deriving Repr, DecidableEq

/-- An untyped document / request body: an association list of fields,
modelling a Python `dict` (keys unique by construction in the program). -/
abbrev Doc := List (String × Value)

/-- `d.get(k)` on a Python dict with no default: the first value bound to
`k`, or `none` when the key is absent. -/
def docGet (d : Doc) (k : String) : Option Value :=
  match d with
  | [] => none
  | (k2, v) :: rest => if k2 = k then some v else docGet rest k

/-- Python `str(...)` applied to a `Value`: the text rendering used for the
`_id` field in `_to_product_out`.  `str(None) = "None"`. -/
def pyStr (v : Value) : String :=
  match v with
  | Value.vNull => "None"
  | Value.vBool true => "True"
  | Value.vBool false => "False"
  | Value.vNum q => toString q
  | Value.vStr s => s
  | Value.vTime t => toString t

/-- Python `bool(...)` truthiness applied to a `Value`, as used by
`_to_product_out` on the `featured` field. -/
def pyBool (v : Value) : Bool :=
  match v with
  | Value.vNull => false
  | Value.vBool b => b
  | Value.vNum q => q ≠ 0
  | Value.vStr s => s ≠ ""
  | Value.vTime _ => true

/-- The API-facing product shape (`ProductOut` in `main.py`).  `id` is a
string because the source applies `str(...)`, and `featured` a boolean
because the source applies `bool(...)`; the remaining fields are passed
through unconverted, so they stay `Value`s here. -/
structure ProductOut where
  id : String
  title : Value
  description : Value
  price : Value
  category : Value
  image : Value
  featured : Bool
  deriving Repr, DecidableEq

/-- `_to_product_out(doc)` from `main.py`: project a stored document to
`ProductOut`, defaulting `title` to `"Untitled"`, `category` to
`"General"` and `featured` to `False` when the key is absent, and
rendering `doc.get("_id")` through `str(...)`. -/
def toProductOut (doc : Doc) : ProductOut :=
  { id := pyStr ((docGet doc "_id").getD Value.vNull)
    title := (docGet doc "title").getD (Value.vStr "Untitled")
    description := (docGet doc "description").getD Value.vNull
    price := (docGet doc "price").getD Value.vNull
    category := (docGet doc "category").getD (Value.vStr "General")
    image := (docGet doc "image").getD Value.vNull
    featured := pyBool ((docGet doc "featured").getD (Value.vBool false)) }

/-- The backing store, when configured: the `product` and `enquiry`
collections, plus two fault flags modelling a store whose `count` or
`insert` operation raises. -/
structure Store where
  products : List Doc
  enquiries : List Doc
  countFails : Bool
  insertFails : Bool
  deriving Repr, DecidableEq

/-- The single hard-coded fallback document returned by `list_products`
when the database is not configured (`db is None`). -/
def fallbackDoc : Doc :=
  [("_id", Value.vStr "0"),
   ("title", Value.vStr "Sample Product"),
   ("description", Value.vStr "Configure DATABASE_URL and DATABASE_NAME to load real items."),
   ("category", Value.vStr "General"),
   ("image", Value.vNull),
   ("featured", Value.vBool true)]

/-- The Mongo equality query assembled by `list_products`: a `featured`
filter whenever the parameter is present (`if featured is not None`), and a
`category` filter only when the parameter is truthy (`if category:`), so an
empty string adds no filter. -/
def buildQuery (featured : Option Bool) (category : Option String) : List (String × Value) :=
  (match featured with
   | some b => [("featured", Value.vBool b)]
   | none => []) ++
  (match category with
   | some c => if c ≠ "" then [("category", Value.vStr c)] else []
   | none => [])

/-- Mongo equality matching of a document against the assembled query:
every queried field must be present and equal to the queried value. -/
def matchesQuery (q : List (String × Value)) (d : Doc) : Bool :=
  q.all (fun kv => docGet d kv.1 == some kv.2)

/-- The sort key of `.sort("created_at", -1)`: the document's `created_at`
timestamp (documents in this program always carry one when sorted). -/
def createdKey (d : Doc) : Nat :=
  match docGet d "created_at" with
  | some (Value.vTime t) => t
  | _ => 0

/-- Insertion step for descending sort by `created_at`. -/
def insertDesc (d : Doc) : List Doc → List Doc
  | [] => [d]
  | e :: es => if createdKey e < createdKey d then d :: e :: es else e :: insertDesc d es

/-- `.sort("created_at", -1)`: descending sort by creation time. -/
def sortByCreatedDesc (l : List Doc) : List Doc :=
  l.foldr insertDesc []

/-- `list_products(featured, category)` from `main.py`: with no configured
database return the single fallback document mapped through
`_to_product_out`; otherwise filter the `product` collection by the
assembled query, sort by `created_at` descending, and map each document. -/
def list_products (db : Option Store) (featured : Option Bool) (category : Option String) :
    List ProductOut :=
  match db with
  | none => [toProductOut fallbackDoc]
  | some s =>
    (sortByCreatedDesc (s.products.filter (matchesQuery (buildQuery featured category)))).map
      toProductOut

/-- The four hard-coded demo products of `seed_products_if_needed`, with the
loop's timestamp stamping made explicit: `datetime.utcnow()` is called twice
per product in list order, so product `i` receives the clock reading `2*i`
as `created_at` and the reading `2*i + 1` as `updated_at`. -/
def demoProducts (clock : Nat → Nat) : List Doc :=
  [[("title", Value.vStr "Precision Laser‑Cut Signage"),
    ("description", Value.vStr "Crisp edges in acrylic/wood with custom finishes."),
    ("price", Value.vNum 149),
    ("category", Value.vStr "2D Laser-cut"),
    ("image", Value.vStr "https://images.unsplash.com/photo-1518779578993-ec3579fee39f?q=80&w=1600&auto=format&fit=crop"),
    ("featured", Value.vBool true),
    ("created_at", Value.vTime (clock 0)),
    ("updated_at", Value.vTime (clock 1))],
   [("title", Value.vStr "3D Trophy – Metallic Finish"),
    ("description", Value.vStr "Award‑ready trophies with premium 3D look."),
    ("price", Value.vNum 249),
    ("category", Value.vStr "3D Trophy"),
    ("image", Value.vStr "https://images.unsplash.com/photo-1513451713350-dee890297c4a?q=80&w=1600&auto=format&fit=crop"),
    ("featured", Value.vBool true),
    ("created_at", Value.vTime (clock 2)),
    ("updated_at", Value.vTime (clock 3))],
   [("title", Value.vStr "3D‑Style Product Mockup"),
    ("description", Value.vStr "Stand‑out visuals for packaging and promos."),
    ("price", Value.vNum 99),
    ("category", Value.vStr "3D Mockup"),
    ("image", Value.vStr "https://images.unsplash.com/photo-1485827404703-89b55fcc595e?q=80&w=1600&auto=format&fit=crop"),
    ("featured", Value.vBool true),
    ("created_at", Value.vTime (clock 4)),
    ("updated_at", Value.vTime (clock 5))],
   [("title", Value.vStr "Custom Keychains"),
    ("description", Value.vStr "Personalised laser‑cut keychains in bulk."),
    ("price", Value.vNum 5),
    ("category", Value.vStr "2D Laser-cut"),
    ("image", Value.vStr "https://images.unsplash.com/photo-1520975922133-0f775525ae37?q=80&w=1600&auto=format&fit=crop"),
    ("featured", Value.vBool false),
    ("created_at", Value.vTime (clock 6)),
    ("updated_at", Value.vTime (clock 7))]]

/-- The body of `seed_products_if_needed` before its `except` clause: store
unconfigured returns at once; otherwise count the `product` collection (may
raise), and when the count is zero insert the four demo products (may
raise). -/
def seedCore (clock : Nat → Nat) (db : Option Store) : Except String (Option Store) :=
  match db with
  | none => .ok none
  | some s =>
    if s.countFails then .error "count_documents failed"
    else if s.products.length = 0 then
      if s.insertFails then .error "insert_many failed"
      else .ok (some { s with products := s.products ++ demoProducts clock })
    else .ok (some s)

/-- `seed_products_if_needed` from `main.py`: the startup seeder.  The
`try/except Exception: pass` wrapper swallows every failure, leaving the
store as it was. -/
def seed_products_if_needed (clock : Nat → Nat) (db : Option Store) : Option Store :=
  match seedCore clock db with
  | .ok r => r
  | .error _ => db

/-- A single field-level validation error, as reported by the request
validation layer. -/
structure FieldError where
  field : String
  msg : String
  deriving Repr, DecidableEq

/-- Validation of a required plain-string field (pydantic `str = Field(...)`):
absent or non-string input is a field error. -/
def checkRequiredStr (raw : Doc) (f : String) : Except FieldError String :=
  match docGet raw f with
  | none => .error ⟨f, "Field required"⟩
  | some (Value.vStr s) => .ok s
  | some _ => .error ⟨f, "Input should be a valid string"⟩

/-- Validation of an optional plain-string field (`Optional[str] = None`):
absent or null yields `none`; a present non-string is a field error. -/
def checkOptionalStr (raw : Doc) (f : String) : Except FieldError (Option String) :=
  match docGet raw f with
  | none => .ok none
  | some Value.vNull => .ok none
  | some (Value.vStr s) => .ok (some s)
  | some _ => .error ⟨f, "Input should be a valid string"⟩

/-- Split a character list at every occurrence of the separator. -/
def splitOnChar (c : Char) : List Char → List (List Char)
  | [] => [[]]
  | a :: rest =>
    match splitOnChar c rest with
    | [] => if a = c then [[], []] else [[a]]
    | g :: gs => if a = c then [] :: g :: gs else (a :: g) :: gs

/-- Email-address syntax in the local@domain shape.  The full grammar of
pydantic's `EmailStr` lives in the external email-validator package; it is
modelled here by its documented shape: one `@`, a nonempty local part, and
a nonempty dotted domain. -/
def isValidEmail (s : String) : Bool :=
  match splitOnChar '@' s.data with
  | [lp, dom] =>
    lp ≠ [] && dom ≠ [] && (splitOnChar '.' dom).length ≥ 2 &&
      (splitOnChar '.' dom).all (fun p => p ≠ [])
  | _ => false

/-- Validation of the required `email: EmailStr` field. -/
def checkEmail (raw : Doc) : Except FieldError String :=
  match docGet raw "email" with
  | none => .error ⟨"email", "Field required"⟩
  | some (Value.vStr s) =>
    if isValidEmail s then .ok s
    else .error ⟨"email", "value is not a valid email address"⟩
  | some _ => .error ⟨"email", "value is not a valid email address"⟩

/-- Validation of `quantity: Optional[int] = Field(None, ge=1)`: absent or
null passes as `none`; an integral number `>= 1` (pydantic coerces an
integral float and an integer-shaped string) passes; zero, a negative
value, a fractional number, or any other shape is a field error. -/
def checkQuantity (raw : Doc) : Except FieldError (Option Int) :=
  match docGet raw "quantity" with
  | none => .ok none
  | some Value.vNull => .ok none
  | some (Value.vNum q) =>
    if q.den = 1 then
      if 1 ≤ q.num then .ok (some q.num)
      else .error ⟨"quantity", "Input should be greater than or equal to 1"⟩
    else .error ⟨"quantity", "Input should be a valid integer"⟩
  | some (Value.vStr s) =>
    match s.toInt? with
    | some n =>
      if 1 ≤ n then .ok (some n)
      else .error ⟨"quantity", "Input should be greater than or equal to 1"⟩
    | none => .error ⟨"quantity", "Input should be a valid integer"⟩
  | some _ => .error ⟨"quantity", "Input should be a valid integer"⟩

/-- The validated enquiry record (`EnquiryIn` in `main.py`; the `Enquiry`
schema in `schemas.py` declares the same fields). -/
structure EnquiryIn where
  name : String
  email : String
  phone : Option String
  company : Option String
  product_type : String
  quantity : Option Int
  budget_range : Option String
  message : String
  reference_url : Option String
  deriving Repr, DecidableEq

/-- Error-accumulating application, modelling how pydantic validates every
field and reports all offending fields together. -/
def apE {α β : Type} (f : Except (List FieldError) (α → β)) (x : Except FieldError α) :
    Except (List FieldError) β :=
  match f, x with
  | .ok g, .ok a => .ok (g a)
  | .ok _, .error e => .error [e]
  | .error l, .ok _ => .error l
  | .error l, .error e => .error (l ++ [e])

/-- The request-model validation the enquiry endpoint actually applies:
pydantic validation of `EnquiryIn` from `main.py`.  Note that its
`product_type` is a plain `str` (the closed set appears only in the field
description), so no membership check is performed on it here. -/
def validateEnquiryIn (raw : Doc) : Except (List FieldError) EnquiryIn :=
  apE (apE (apE (apE (apE (apE (apE (apE (apE (.ok EnquiryIn.mk)
    (checkRequiredStr raw "name"))
    (checkEmail raw))
    (checkOptionalStr raw "phone"))
    (checkOptionalStr raw "company"))
    (checkRequiredStr raw "product_type"))
    (checkQuantity raw))
    (checkOptionalStr raw "budget_range"))
    (checkRequiredStr raw "message"))
    (checkOptionalStr raw "reference_url")

/-- The closed set of product types declared by the `Literal` of the
`Enquiry` schema in `schemas.py`. -/
def allowedProductTypes : List String :=
  ["2D Laser-cut", "3D Trophy", "3D Mockup", "Other"]

/-- Validation of `product_type` under the `Enquiry` schema of `schemas.py`:
exact membership in the closed set, failing with a field error naming the
field and the allowed set. -/
def checkProductTypeSchema (raw : Doc) : Except FieldError String :=
  match checkRequiredStr raw "product_type" with
  | .error e => .error e
  | .ok s =>
    if s ∈ allowedProductTypes then .ok s
    else .error ⟨"product_type",
      "Input should be one of: 2D Laser-cut, 3D Trophy, 3D Mockup, Other"⟩

/-- Pydantic validation of the `Enquiry` schema from `schemas.py`: the same
fields as `EnquiryIn`, with `product_type` constrained to the closed set by
`Literal`.  The enquiry endpoint never invokes this schema. -/
def validateEnquirySchema (raw : Doc) : Except (List FieldError) EnquiryIn :=
  apE (apE (apE (apE (apE (apE (apE (apE (apE (.ok EnquiryIn.mk)
    (checkRequiredStr raw "name"))
    (checkEmail raw))
    (checkOptionalStr raw "phone"))
    (checkOptionalStr raw "company"))
    (checkProductTypeSchema raw))
    (checkQuantity raw))
    (checkOptionalStr raw "budget_range"))
    (checkRequiredStr raw "message"))
    (checkOptionalStr raw "reference_url")

/-- An optional string rendered as a stored value. -/
def optStrVal : Option String → Value
  | none => Value.vNull
  | some s => Value.vStr s

/-- A validated enquiry rendered as the document written to the store. -/
def enquiryDoc (p : EnquiryIn) : Doc :=
  [("name", Value.vStr p.name),
   ("email", Value.vStr p.email),
   ("phone", optStrVal p.phone),
   ("company", optStrVal p.company),
   ("product_type", Value.vStr p.product_type),
   ("quantity", match p.quantity with | none => Value.vNull | some n => Value.vNum n),
   ("budget_range", optStrVal p.budget_range),
   ("message", Value.vStr p.message),
   ("reference_url", optStrVal p.reference_url)]

/-- Modelled from the spec: `create_document` lives in the repository's
`database.py`, which is not under `src/`.  Per the spec it performs a
single insert of the validated record into the named collection (here the
`enquiry` collection), surfaces store unavailability or a rejected write as
a failure, and returns the store-assigned identifier rendered as text. -/
def create_document (db : Option Store) (p : EnquiryIn) : Except String (String × Store) :=
  match db with
  | none => .error "Database not available"
  | some s =>
    if s.insertFails then .error "insert rejected"
    else .ok (toString s.enquiries.length,
              { s with enquiries := s.enquiries ++ [enquiryDoc p] })

/-- The HTTP outcome of an enquiry submission: 201 with `{id, created_at}`,
a 4xx validation failure with per-field detail, or the 500 raised by the
handler when the store call fails. -/
inductive EnquiryResponse where
  | created (id : String) (created_at : Nat) : EnquiryResponse
  | validationFailure (errors : List FieldError) : EnquiryResponse
  | serverError (detail : String) : EnquiryResponse
  deriving Repr, DecidableEq

/-- `create_enquiry` from `main.py`, together with the framework step that
precedes it: the raw body is validated against `EnquiryIn` before the
handler body runs, a validation failure is returned with its field errors
and reaches no store operation, and on success the handler inserts via
`create_document`, mapping any store failure to a `Failed to submit` server
error that leaves the store unchanged. -/
def create_enquiry (clock : Nat → Nat) (db : Option Store) (raw : Doc) :
    EnquiryResponse × Option Store :=
  match validateEnquiryIn raw with
  | .error errs => (.validationFailure errs, db)
  | .ok payload =>
    match create_document db payload with
    | .ok (id, s2) => (.created id (clock 0), some s2)
    | .error e => (.serverError ("Failed to submit: " ++ e), db)

/-- C2: for every stored product document, `_to_product_out` yields a fully
populated output record: a document with no `title` key maps to title
`"Untitled"`, no `category` key maps to `"General"`, and no `featured` key
maps to `false`; absence of such a field is never an error (the mapper is a
total function) and never surfaced as absent. -/
theorem toProductOut_defaults (doc : Doc) :
    (docGet doc "title" = none → (toProductOut doc).title = Value.vStr "Untitled") ∧
    (docGet doc "category" = none → (toProductOut doc).category = Value.vStr "General") ∧
    (docGet doc "featured" = none → (toProductOut doc).featured = false) := by
  refine ⟨?_, ?_, ?_⟩ <;> intro h <;> simp [toProductOut, h, pyBool]

theorem toProductOut_defaults_witness :
    docGet [] "title" = none ∧ (toProductOut []).title = Value.vStr "Untitled" ∧
    docGet [] "category" = none ∧ (toProductOut []).category = Value.vStr "General" ∧
    docGet [] "featured" = none ∧ (toProductOut []).featured = false :=
  ⟨rfl, (toProductOut_defaults []).1 rfl, rfl, (toProductOut_defaults []).2.1 rfl,
   rfl, (toProductOut_defaults []).2.2 rfl⟩

/-- C8: for every document in which title, description, price, category,
image and featured are all present with their written values, the mapper
returns exactly those values for every field — no default is substituted
for a present field. -/
theorem toProductOut_preserves_present_fields (doc : Doc)
    (t de c i : String) (p : ℚ) (f : Bool)
    (ht : docGet doc "title" = some (Value.vStr t))
    (hd : docGet doc "description" = some (Value.vStr de))
    (hp : docGet doc "price" = some (Value.vNum p))
    (hc : docGet doc "category" = some (Value.vStr c))
    (hi : docGet doc "image" = some (Value.vStr i))
    (hf : docGet doc "featured" = some (Value.vBool f)) :
    (toProductOut doc).title = Value.vStr t ∧
    (toProductOut doc).description = Value.vStr de ∧
    (toProductOut doc).price = Value.vNum p ∧
    (toProductOut doc).category = Value.vStr c ∧
    (toProductOut doc).image = Value.vStr i ∧
    (toProductOut doc).featured = f := by
  simp [toProductOut, ht, hd, hp, hc, hi, hf, pyBool]

/-- A fully-populated sample document used to witness C8. -/
def fullDoc : Doc :=
  [("_id", Value.vStr "abc"),
   ("title", Value.vStr "T"),
   ("description", Value.vStr "D"),
   ("price", Value.vNum 7),
   ("category", Value.vStr "C"),
   ("image", Value.vStr "I"),
   ("featured", Value.vBool true)]

theorem toProductOut_preserves_present_fields_witness :
    (toProductOut fullDoc).title = Value.vStr "T" ∧
    (toProductOut fullDoc).description = Value.vStr "D" ∧
    (toProductOut fullDoc).price = Value.vNum 7 ∧
    (toProductOut fullDoc).category = Value.vStr "C" ∧
    (toProductOut fullDoc).image = Value.vStr "I" ∧
    (toProductOut fullDoc).featured = true :=
  toProductOut_preserves_present_fields fullDoc "T" "D" "C" "I" 7 true
    rfl rfl rfl rfl rfl rfl

/-- C9: the mapper is total with respect to identity: the output `id` is
always the text rendering of the document's `_id` value, and a document
with no `_id` key still maps successfully, with the literal text `"None"`
as its id (Python renders `str(None)` so). -/
theorem toProductOut_id_total (doc : Doc) :
    (∀ v, docGet doc "_id" = some v → (toProductOut doc).id = pyStr v) ∧
    (docGet doc "_id" = none → (toProductOut doc).id = "None") := by
  constructor
  · intro v h
    simp [toProductOut, h]
  · intro h
    simp [toProductOut, h, pyStr]

theorem toProductOut_id_total_witness :
    docGet [] "_id" = none ∧ (toProductOut []).id = "None" ∧
    docGet fullDoc "_id" = some (Value.vStr "abc") ∧ (toProductOut fullDoc).id = "abc" :=
  ⟨rfl, (toProductOut_id_total []).2 rfl, rfl,
   (toProductOut_id_total fullDoc).1 (Value.vStr "abc") rfl⟩

/-- A configured store whose product collection is empty. -/
def emptyStore : Store :=
  { products := [], enquiries := [], countFails := false, insertFails := false }

/-- C3, counterexample: with a configured store whose product collection is
empty, `list_products` returns the empty list — zero records — and not the
single fallback record the claim asserts. -/
theorem list_products_empty_collection_not_fallback :
    list_products (some emptyStore) none none = [] ∧
    list_products (some emptyStore) none none ≠ [toProductOut fallbackDoc] := by
  constructor
  · rfl
  · intro h
    simp [list_products, emptyStore, sortByCreatedDesc] at h

/-- C3, amended: when the store is unconfigured, `list_products` returns
exactly one fallback record, titled `"Sample Product"` with
`featured = true`; when the store is configured but the product collection
is empty, it returns the empty list — in neither case an error (the
function is total). -/
theorem list_products_fallback_only_when_unconfigured :
    (∀ (f : Option Bool) (c : Option String),
      list_products none f c = [toProductOut fallbackDoc] ∧
      (toProductOut fallbackDoc).title = Value.vStr "Sample Product" ∧
      (toProductOut fallbackDoc).featured = true) ∧
    (∀ (f : Option Bool) (c : Option String) (s : Store), s.products = [] →
      list_products (some s) f c = []) := by
  constructor
  · intro f c
    exact ⟨rfl, rfl, rfl⟩
  · intro f c s hs
    simp [list_products, hs, sortByCreatedDesc]

theorem list_products_fallback_only_when_unconfigured_witness :
    emptyStore.products = [] ∧
    list_products (some emptyStore) (some true) (some "x") = [] :=
  ⟨rfl, list_products_fallback_only_when_unconfigured.2 (some true) (some "x") emptyStore rfl⟩

/-- C10: a `category` query parameter equal to the empty string behaves
exactly like an absent one (no category filter is added, so the listing is
unchanged), while the `featured` filter is part of the query whenever the
parameter is present — including `featured = false` — and every document
passing the filter then carries that exact `featured` value. -/
theorem list_products_filters :
    (∀ (db : Option Store) (f : Option Bool),
      list_products db f (some "") = list_products db f none) ∧
    (∀ (b : Bool) (c : Option String),
      ("featured", Value.vBool b) ∈ buildQuery (some b) c) ∧
    (∀ (s : Store) (b : Bool) (c : Option String) (d : Doc),
      d ∈ s.products.filter (matchesQuery (buildQuery (some b) c)) →
      docGet d "featured" = some (Value.vBool b)) := by
  have hmem : ∀ (b : Bool) (c : Option String),
      ("featured", Value.vBool b) ∈ buildQuery (some b) c := by
    intro b c
    simp [buildQuery]
  refine ⟨?_, hmem, ?_⟩
  · intro db f
    cases db with
    | none => rfl
    | some s => simp [list_products, buildQuery]
  · intro s b c d hd
    have hq : matchesQuery (buildQuery (some b) c) d = true := (List.mem_filter.mp hd).2
    unfold matchesQuery at hq
    rw [List.all_eq_true] at hq
    have h2 := hq ("featured", Value.vBool b) (hmem b c)
    simpa using h2

/-- A one-document store used to witness the featured filter of C10. -/
def featuredStore : Store :=
  { products := [[("title", Value.vStr "T"), ("featured", Value.vBool false)]],
    enquiries := [], countFails := false, insertFails := false }

theorem list_products_filters_witness :
    [(("title", Value.vStr "T")), (("featured", Value.vBool false))] ∈
      featuredStore.products.filter (matchesQuery (buildQuery (some false) (some ""))) ∧
    docGet [(("title", Value.vStr "T")), (("featured", Value.vBool false))] "featured" =
      some (Value.vBool false) ∧
    list_products (some featuredStore) (some false) (some "") =
      list_products (some featuredStore) (some false) none := by
  have hmem : [(("title", Value.vStr "T")), (("featured", Value.vBool false))] ∈
      featuredStore.products.filter (matchesQuery (buildQuery (some false) (some ""))) := by
    decide
  exact ⟨hmem,
    list_products_filters.2.2 featuredStore false (some "")
      [(("title", Value.vStr "T")), (("featured", Value.vBool false))] hmem,
    list_products_filters.1 (some featuredStore) (some false)⟩

/-- C4, counterexample: the seeder stamps `created_at` and `updated_at`
with two separate `datetime.utcnow()` calls per record, so under a clock
that advances between consecutive readings every seeded record has
`created_at ≠ updated_at`, contradicting the claimed equality. -/
theorem seed_timestamps_differ_with_advancing_clock :
    seed_products_if_needed (fun n => n) (some emptyStore) =
      some { emptyStore with products := demoProducts (fun n => n) } ∧
    ((demoProducts (fun n => n)).map
      (fun d => docGet d "created_at" == docGet d "updated_at")) =
      [false, false, false, false] := by
  constructor
  · rfl
  · rfl

/-- C4, amended: run against a configured store whose product collection
has count zero and whose count/insert operations succeed, the seeder
inserts exactly four records with the four literal titles, and the i-th
record's `created_at` and `updated_at` are stamped from the two consecutive
`utcnow` readings `2*i` and `2*i + 1` respectively — equal only when the
clock does not advance between the two calls, not in general. -/
theorem seed_inserts_four_demo_products (clock : Nat → Nat) (s : Store)
    (hp : s.products = []) (hc : s.countFails = false) (hi : s.insertFails = false) :
    seed_products_if_needed clock (some s) =
      some { s with products := demoProducts clock } ∧
    (demoProducts clock).length = 4 ∧
    (demoProducts clock).map (fun d => docGet d "title") =
      [some (Value.vStr "Precision Laser‑Cut Signage"),
       some (Value.vStr "3D Trophy – Metallic Finish"),
       some (Value.vStr "3D‑Style Product Mockup"),
       some (Value.vStr "Custom Keychains")] ∧
    (demoProducts clock).map (fun d => docGet d "created_at") =
      [some (Value.vTime (clock 0)), some (Value.vTime (clock 2)),
       some (Value.vTime (clock 4)), some (Value.vTime (clock 6))] ∧
    (demoProducts clock).map (fun d => docGet d "updated_at") =
      [some (Value.vTime (clock 1)), some (Value.vTime (clock 3)),
       some (Value.vTime (clock 5)), some (Value.vTime (clock 7))] := by
  refine ⟨?_, rfl, ?_, ?_, ?_⟩
  · simp [seed_products_if_needed, seedCore, hp, hc, hi]
  · simp [demoProducts, docGet]
  · simp [demoProducts, docGet]
  · simp [demoProducts, docGet]

theorem seed_inserts_four_demo_products_witness :
    emptyStore.products = [] ∧ emptyStore.countFails = false ∧
    emptyStore.insertFails = false ∧
    seed_products_if_needed (fun _ => 9) (some emptyStore) =
      some { emptyStore with products := demoProducts (fun _ => 9) } ∧
    (demoProducts (fun _ => 9)).length = 4 :=
  ⟨rfl, rfl, rfl,
   (seed_inserts_four_demo_products (fun _ => 9) emptyStore rfl rfl rfl).1,
   (seed_inserts_four_demo_products (fun _ => 9) emptyStore rfl rfl rfl).2.1⟩

/-- C5: the seeder swallows every store failure (an exceptional run of its
body leaves the store exactly as it was, and the function always returns
normally); an unconfigured store is a no-op, and a store whose product
count is positive is left unchanged — nothing is inserted. -/
theorem seed_never_raises_and_noop_cases (clock : Nat → Nat) :
    (seed_products_if_needed clock none = none) ∧
    (∀ s : Store, s.products ≠ [] → seed_products_if_needed clock (some s) = some s) ∧
    (∀ (db : Option Store) (e : String),
      seedCore clock db = .error e → seed_products_if_needed clock db = db) := by
  refine ⟨rfl, ?_, ?_⟩
  · intro s hs
    by_cases hcf : s.countFails
    · simp [seed_products_if_needed, seedCore, hcf]
    · have hlen : s.products.length ≠ 0 := by
        simpa [List.length_eq_zero] using hs
      simp [seed_products_if_needed, seedCore, hcf, hlen]
  · intro db e h
    unfold seed_products_if_needed
    rw [h]

/-- A configured store holding one product, to witness the non-empty no-op
case of C5. -/
def oneProductStore : Store :=
  { products := [fullDoc], enquiries := [], countFails := false, insertFails := false }

/-- A configured store whose count operation raises, to witness the
swallowed-failure case of C5. -/
def countFailStore : Store :=
  { products := [], enquiries := [], countFails := true, insertFails := false }

theorem seed_never_raises_and_noop_cases_witness :
    seed_products_if_needed (fun _ => 0) none = none ∧
    oneProductStore.products ≠ [] ∧
    seed_products_if_needed (fun _ => 0) (some oneProductStore) = some oneProductStore ∧
    seedCore (fun _ => 0) (some countFailStore) = .error "count_documents failed" ∧
    seed_products_if_needed (fun _ => 0) (some countFailStore) = some countFailStore :=
  ⟨(seed_never_raises_and_noop_cases (fun _ => 0)).1,
   by simp [oneProductStore],
   (seed_never_raises_and_noop_cases (fun _ => 0)).2.1 oneProductStore
     (by simp [oneProductStore]),
   rfl,
   (seed_never_raises_and_noop_cases (fun _ => 0)).2.2 (some countFailStore)
     "count_documents failed" rfl⟩

/-- Inversion of the error-accumulating application: a successful result
means both sides were successful. -/
theorem apE_ok {α β : Type} {f : Except (List FieldError) (α → β)}
    {x : Except FieldError α} {b : β} (h : apE f x = .ok b) :
    ∃ g a, f = .ok g ∧ x = .ok a ∧ b = g a := by
  cases f with
  | ok g =>
    cases x with
    | ok a =>
      refine ⟨g, a, rfl, rfl, ?_⟩
      simpa [apE] using h.symm
    | error e => simp [apE] at h
  | error l =>
    cases x with
    | ok a => simp [apE] at h
    | error e => simp [apE] at h

/-- The error-accumulating application never reports an empty error list,
provided the left side never did. -/
theorem apE_error_ne_nil {α β : Type} {f : Except (List FieldError) (α → β)}
    {x : Except FieldError α} (hf : ∀ l, f = .error l → l ≠ []) :
    ∀ l, apE f x = .error l → l ≠ [] := by
  intro l h
  cases f with
  | ok g =>
    cases x with
    | ok a => simp [apE] at h
    | error e =>
      have : ([e] : List FieldError) = l := by simpa [apE] using h
      simp [← this]
  | error l0 =>
    have hne := hf l0 rfl
    cases x with
    | ok a =>
      have : l0 = l := by simpa [apE] using h
      simpa [← this] using hne
    | error e =>
      have : l0 ++ [e] = l := by simpa [apE] using h
      simp [← this]

/-- When request validation of `EnquiryIn` fails, its per-field error list
is nonempty: the failure always carries field-level detail. -/
theorem validateEnquiryIn_error_ne_nil (raw : Doc) (l : List FieldError)
    (h : validateEnquiryIn raw = .error l) : l ≠ [] := by
  unfold validateEnquiryIn at h
  have h0 : ∀ lx, (Except.ok EnquiryIn.mk :
      Except (List FieldError) (String → String → Option String → Option String →
        String → Option Int → Option String → String → Option String → EnquiryIn)) =
      .error lx → lx ≠ [] := by
    intro lx hx
    simp at hx
  exact apE_error_ne_nil (apE_error_ne_nil (apE_error_ne_nil (apE_error_ne_nil
    (apE_error_ne_nil (apE_error_ne_nil (apE_error_ne_nil (apE_error_ne_nil
      (apE_error_ne_nil h0)))))))) l h

/-- C6: an enquiry submission whose body fails request validation is
answered with exactly the per-field validation errors (a nonempty list),
and the store is left exactly as it was — no write occurs. -/
theorem enquiry_validation_failure_prevents_write (clock : Nat → Nat)
    (db : Option Store) (raw : Doc) (errs : List FieldError)
    (h : validateEnquiryIn raw = .error errs) :
    create_enquiry clock db raw = (.validationFailure errs, db) ∧ errs ≠ [] := by
  constructor
  · simp [create_enquiry, h]
  · exact validateEnquiryIn_error_ne_nil raw errs h

/-- The error list produced for a fully empty request body:
the four required fields, in declaration order. -/
def emptyBodyErrors : List FieldError :=
  [⟨"name", "Field required"⟩, ⟨"email", "Field required"⟩,
   ⟨"product_type", "Field required"⟩, ⟨"message", "Field required"⟩]

theorem enquiry_validation_failure_prevents_write_witness :
    validateEnquiryIn [] = .error emptyBodyErrors ∧
    create_enquiry (fun _ => 0) (some emptyStore) [] =
      (.validationFailure emptyBodyErrors, some emptyStore) ∧
    emptyBodyErrors ≠ [] := by
  have h : validateEnquiryIn [] = .error emptyBodyErrors := by rfl
  exact ⟨h,
    (enquiry_validation_failure_prevents_write (fun _ => 0) (some emptyStore) [] emptyBodyErrors h).1,
    (enquiry_validation_failure_prevents_write (fun _ => 0) (some emptyStore) [] emptyBodyErrors h).2⟩

/-- Whether validation succeeded. -/
def isOkE {α : Type} : Except (List FieldError) α → Bool
  | .ok _ => true
  | .error _ => false

/-- C7: the `quantity` rule of the request model.  A successful validation
always carries a quantity that passed the field check; an absent quantity
passes the field check as `none`; an integral quantity `>= 1` passes with
its value; an integral quantity that is zero or negative fails with the
`ge`-bound field error; a fractional quantity fails with the integer field
error; and any failure of the field check makes the whole validation
fail. -/
theorem enquiry_quantity_constraint :
    (∀ (raw : Doc) (v : EnquiryIn), validateEnquiryIn raw = .ok v →
      checkQuantity raw = .ok v.quantity) ∧
    (∀ raw : Doc, docGet raw "quantity" = none → checkQuantity raw = .ok none) ∧
    (∀ (raw : Doc) (q : ℚ), docGet raw "quantity" = some (Value.vNum q) →
      q.den = 1 → 1 ≤ q.num → checkQuantity raw = .ok (some q.num)) ∧
    (∀ (raw : Doc) (q : ℚ), docGet raw "quantity" = some (Value.vNum q) →
      q.den = 1 → q.num < 1 →
      checkQuantity raw = .error ⟨"quantity", "Input should be greater than or equal to 1"⟩) ∧
    (∀ (raw : Doc) (q : ℚ), docGet raw "quantity" = some (Value.vNum q) →
      q.den ≠ 1 →
      checkQuantity raw = .error ⟨"quantity", "Input should be a valid integer"⟩) ∧
    (∀ (raw : Doc) (e : FieldError), checkQuantity raw = .error e →
      isOkE (validateEnquiryIn raw) = false) := by
  have hA : ∀ (raw : Doc) (v : EnquiryIn), validateEnquiryIn raw = .ok v →
      checkQuantity raw = .ok v.quantity := by
    intro raw v h
    unfold validateEnquiryIn at h
    obtain ⟨g9, ru, h8, hru, hv⟩ := apE_ok h
    obtain ⟨g8, m, h7, hm, hg9⟩ := apE_ok h8
    obtain ⟨g7, bu, h6, hbu, hg8⟩ := apE_ok h7
    obtain ⟨g6, qv, h5, hqv, hg7⟩ := apE_ok h6
    obtain ⟨g5, pt, h4, hpt, hg6⟩ := apE_ok h5
    obtain ⟨g4, co, h3, hco, hg5⟩ := apE_ok h4
    obtain ⟨g3, ph, h2b, hph, hg4⟩ := apE_ok h3
    obtain ⟨g2, em, h1b, hem, hg3⟩ := apE_ok h2b
    obtain ⟨g1, nm, h0b, hnm, hg2⟩ := apE_ok h1b
    injection h0b with hg1
    subst hg1 hg2 hg3 hg4 hg5 hg6 hg7 hg8 hg9 hv
    exact hqv
  refine ⟨hA, ?_, ?_, ?_, ?_, ?_⟩
  · intro raw h
    simp [checkQuantity, h]
  · intro raw q h hden hge
    simp [checkQuantity, h, hden, hge]
  · intro raw q h hden hlt
    simp [checkQuantity, h, hden, not_le.mpr hlt]
  · intro raw q h hden
    simp [checkQuantity, h, hden]
  · intro raw e he
    cases hv : validateEnquiryIn raw with
    | ok v =>
      have := hA raw v hv
      rw [he] at this
      exact absurd this (by simp)
    | error l => rfl

/-- The fraction 5/2, written in lowest terms so that its denominator is
a definitional projection. -/
def qHalfFive : ℚ := ⟨5, 2, by norm_num, by norm_num⟩

theorem enquiry_quantity_constraint_witness :
    checkQuantity [] = .ok none ∧
    checkQuantity [("quantity", Value.vNum 3)] = .ok (some (3 : ℚ).num) ∧
    checkQuantity [("quantity", Value.vNum 0)] =
      .error ⟨"quantity", "Input should be greater than or equal to 1"⟩ ∧
    checkQuantity [("quantity", Value.vNum (-2))] =
      .error ⟨"quantity", "Input should be greater than or equal to 1"⟩ ∧
    checkQuantity [("quantity", Value.vNum qHalfFive)] =
      .error ⟨"quantity", "Input should be a valid integer"⟩ ∧
    isOkE (validateEnquiryIn [("quantity", Value.vNum 0)]) = false := by
  have hzero := enquiry_quantity_constraint.2.2.2.1 [("quantity", Value.vNum 0)] 0
    rfl (by decide) (by decide)
  exact ⟨enquiry_quantity_constraint.2.1 [] rfl,
    enquiry_quantity_constraint.2.2.1 [("quantity", Value.vNum 3)] 3 rfl
      (by decide) (by decide),
    hzero,
    enquiry_quantity_constraint.2.2.2.1 [("quantity", Value.vNum (-2))] (-2)
      rfl (by decide) (by decide),
    enquiry_quantity_constraint.2.2.2.2.1 [("quantity", Value.vNum qHalfFive)] qHalfFive
      rfl (by decide),
    enquiry_quantity_constraint.2.2.2.2.2 [("quantity", Value.vNum 0)] _ hzero⟩

/-- An enquiry submission whose `product_type` lies outside the closed set
documented by the field itself and declared by the `Enquiry` schema. -/
def badEnquiry : Doc :=
  [("name", Value.vStr "A"),
   ("email", Value.vStr "a@b.com"),
   ("product_type", Value.vStr "Banana"),
   ("message", Value.vStr "hi")]

/-- C1: the request-model validation the enquiry endpoint actually applies
(`EnquiryIn`, whose `product_type` is a plain `str`) accepts the out-of-set
`product_type` `"Banana"`, the submission then succeeds with a 201 and the
enquiry is written to the store, while the repository's own `Enquiry`
schema (`schemas.py`, never invoked by the endpoint) rejects the same input
with a field error naming `product_type` and the allowed set. -/
theorem enquiry_product_type_unchecked_at_endpoint :
    validateEnquiryIn badEnquiry =
      .ok { name := "A", email := "a@b.com", phone := none, company := none,
            product_type := "Banana", quantity := none, budget_range := none,
            message := "hi", reference_url := none } ∧
    create_enquiry (fun _ => 0) (some emptyStore) badEnquiry =
      (.created "0" 0,
       some { emptyStore with
              enquiries := [enquiryDoc
                { name := "A", email := "a@b.com", phone := none, company := none,
                  product_type := "Banana", quantity := none, budget_range := none,
                  message := "hi", reference_url := none }] }) ∧
    validateEnquirySchema badEnquiry =
      .error [⟨"product_type",
        "Input should be one of: 2D Laser-cut, 3D Trophy, 3D Mockup, Other"⟩] := by
  refine ⟨?_, ?_, ?_⟩ <;> rfl
